import Mathlib

/-!
Shallow embedding of the campus placement/internship-tracking application
(React Native + Supabase).  The definitions below translate, table by table
and handler by handler, the workflow code of the repository:

* `src/lib/constants.ts`                — the fixed assignment catalog;
* `src/app/(student)/internships.tsx`   — `isAssignmentLocked`,
  `uploadDocument`, `loadApprovalStatus`;
* `src/unnamed/part_001` (admin class-view screen) — `loadData`
  reconciliation and `awardCredits`;
* `src/app/(student)/placements.tsx`    — `loadPlacementEvents`,
  `applyForPlacement`, `hasAcceptedOffer`, `uploadRequirement`;
* `src/app/(admin)/placements.tsx`      — `acceptApplication`.

Database rows are lists of records, keyed lookups are `List.find?`, the
Supabase `update ... eq` is a conditional `List.map`, `upsert` with an
`onConflict` key updates the matching rows or appends, and a unique-key
insert either appends or reports the Postgres duplicate-key error `23505`.
Backend writes that the code allows to fail independently are modelled by
an explicit outcome record (`BackendOutcome`) so that partial-failure
behaviour is the code, not an idealisation.
-/

namespace Campus

/-- The six internship assignment types of `STATIC_ASSIGNMENTS`
(`src/lib/constants.ts`). -/
inductive AssignmentType where
  | offer_letter
  | completion_letter
  | weekly_report
  | student_outcome
  | student_feedback
  | company_outcome
deriving DecidableEq, Repr

/-- One entry of the `STATIC_ASSIGNMENTS` catalog: `type`, `required`,
`unlockOthers` (titles, descriptions and bucket names are presentation
strings and are kept as data as well). -/
structure Assignment where
  type : AssignmentType
  title : String
  bucket : String
  required : Bool
  unlockOthers : Bool
deriving DecidableEq, Repr

end Campus

namespace Campus

/-- Status column `submission_status` of `student_internship_submissions`. -/
inductive SubmissionStatus where
  | submitted
  | approved
  | rejected
deriving DecidableEq, Repr

/-- The fixed catalog `STATIC_ASSIGNMENTS` of `src/lib/constants.ts`:
six required document types, `unlockOthers` true only for the offer
letter. -/
def STATIC_ASSIGNMENTS : List Assignment :=
  [ { type := .offer_letter, title := "Offer Letter",
      bucket := "internship-offer-letters", required := true, unlockOthers := true },
    { type := .completion_letter, title := "Completion Letter",
      bucket := "internship-completion-letters", required := true, unlockOthers := false },
    { type := .weekly_report, title := "Weekly Report",
      bucket := "internship-weekly-reports", required := true, unlockOthers := false },
    { type := .student_outcome, title := "Student Outcome",
      bucket := "internship-student-outcomes", required := true, unlockOthers := false },
    { type := .student_feedback, title := "Student Feedback",
      bucket := "internship-student-feedback", required := true, unlockOthers := false },
    { type := .company_outcome, title := "Company Outcome",
      bucket := "internship-company-outcomes", required := true, unlockOthers := false } ]

/-- A row of `student_internship_submissions`. -/
structure Submission where
  student_id : String
  assignment_type : AssignmentType
  file_url : String
  submission_status : SubmissionStatus
  submitted_at : Nat
  admin_feedback : Option String
deriving DecidableEq, Repr

/-- A row of `student_internship_approvals`. -/
structure Approval where
  student_id : String
  offer_letter_approved : Bool
  credits_awarded : Bool
  approved_at : Option Nat
  credits_awarded_at : Option Nat
deriving DecidableEq, Repr

/-- A row of `students` (only the columns the workflow touches). -/
structure Student where
  id : String
  total_credits : Nat
deriving DecidableEq, Repr

/-- A row of `student_profiles` (columns used by the admin class view). -/
structure Profile where
  student_id : String
  class_ : String
deriving DecidableEq, Repr

/-- The backend state the internship workflow reads and writes: the four
tables plus the object-store bucket contents (file names of stored
uploads). -/
structure DB where
  students : List Student
  profiles : List Profile
  submissions : List Submission
  approvals : List Approval
  storedFiles : List String
deriving DecidableEq, Repr

/-- Keyed lookup on `student_internship_submissions`: the first row for the
composite key `(student_id, assignment_type)` (the screens use
`submissions.find(sub => sub.assignment_type === ...)` on the rows already
filtered by student). -/
def findSubmission (subs : List Submission) (sid : String) (t : AssignmentType) :
    Option Submission :=
  subs.find? fun s => decide (s.student_id = sid ∧ s.assignment_type = t)

/-- Keyed lookup on `student_internship_approvals` by `student_id`. -/
def getApproval (approvals : List Approval) (sid : String) : Option Approval :=
  approvals.find? fun a => decide (a.student_id = sid)

/-- The `offer_letter_approved` flag a screen sees for a student: the value of the row, or `false` when no approval row exists (the JS code defaults a
missing row to false everywhere). -/
def offerFlagIn (approvals : List Approval) (sid : String) : Bool :=
  ((getApproval approvals sid).map (fun a => a.offer_letter_approved)).getD false

/-- The `credits_awarded` flag a screen sees for a student, defaulting to
`false` when the approval row is missing. -/
def creditsFlagIn (approvals : List Approval) (sid : String) : Bool :=
  ((getApproval approvals sid).map (fun a => a.credits_awarded)).getD false

/-- Keyed lookup on `students` by `id`. -/
def getStudent (students : List Student) (sid : String) : Option Student :=
  students.find? fun st => decide (st.id = sid)

/-- The `total_credits` of a student as read by `awardCredits`
(`studentData.total_credits || 0`). -/
def totalCreditsOf (db : DB) (sid : String) : Nat :=
  ((getStudent db.students sid).map (fun st => st.total_credits)).getD 0

/-- Supabase `update(\x7b offer_letter_approved: b \x7d).eq(student_id, sid)`
on `student_internship_approvals`: updates every existing matching row,
inserts nothing. -/
def setOfferApproved (b : Bool) (sid : String) (approvals : List Approval) :
    List Approval :=
  approvals.map fun a =>
    if a.student_id = sid then { a with offer_letter_approved := b } else a

/-- Supabase `update(\x7b credits_awarded: b \x7d).eq(student_id, sid)` on
`student_internship_approvals`. -/
def setCreditsAwarded (b : Bool) (sid : String) (approvals : List Approval) :
    List Approval :=
  approvals.map fun a =>
    if a.student_id = sid then { a with credits_awarded := b } else a

/-- The approval state held in the `approval` component state of the
student internships screen (`offer_letter_approved`, `credits_awarded`). -/
structure ApprovalView where
  offer_letter_approved : Bool
  credits_awarded : Bool
deriving DecidableEq, Repr

/-- `isAssignmentLocked` from `src/app/(student)/internships.tsx` lines
225–228: the offer letter itself is never locked; every other assignment is
locked exactly while `approval.offer_letter_approved` is false. -/
def isAssignmentLocked (approval : ApprovalView) (assignment : Assignment) : Bool :=
  if assignment.type = AssignmentType.offer_letter then false
  else !approval.offer_letter_approved

/-- Result of the document picker (`DocumentPicker.getDocumentAsync`):
either the user cancelled, or a file with a name and a content URI was
chosen. -/
inductive PickerOutcome where
  | canceled
  | picked (name : String) (uri : String)
deriving DecidableEq, Repr

/-- Outcome of an upload attempt as the screens surface it. -/
inductive UploadOutcome where
  | lockedAssignment
  | noChange
  | saved
deriving DecidableEq, Repr

/-- `uploadFile(student-documents, fileName, blob)` followed by the
public-URL read (`src/lib/supabase.ts` helper): stores the object and
returns its stable public URL. -/
def publicUrlFor (bucket fileName : String) : String :=
  "https://storage/" ++ bucket ++ "/" ++ fileName

/-- Supabase `upsert(..., \x7b onConflict student_id,assignment_type \x7d)`
on `student_internship_submissions`: overwrite the matching rows, or append
a fresh row when none matches. -/
def upsertSubmission (subs : List Submission) (row : Submission) : List Submission :=
  if subs.any (fun s =>
      decide (s.student_id = row.student_id ∧ s.assignment_type = row.assignment_type)) then
    subs.map fun s =>
      if s.student_id = row.student_id ∧ s.assignment_type = row.assignment_type then row
      else s
  else subs ++ [row]

/-- `uploadDocument` from `src/app/(student)/internships.tsx` lines
121–219 (configured-backend path, no backend failure): if the picker was
cancelled the handler returns before any write; otherwise the file is
stored under `userId_assignmentType_timestamp.ext` and the submission row
is upserted with status `submitted`. -/
def uploadDocument (db : DB) (sid : String) (atype : AssignmentType)
    (_bucket : String) (now : Nat) (res : PickerOutcome) : DB × UploadOutcome :=
  match res with
  | .canceled => (db, .noChange)
  | .picked name _uri =>
      let fileName := sid ++ "_" ++ name ++ "_" ++ toString now
      let url := publicUrlFor "student-documents" fileName
      let db1 := { db with storedFiles := db.storedFiles ++ [fileName] }
      let row : Submission :=
        { student_id := sid, assignment_type := atype, file_url := url,
          submission_status := .submitted, submitted_at := now, admin_feedback := none }
      ({ db1 with submissions := upsertSubmission db1.submissions row }, .saved)

/-- A student pressing the upload button of an assignment card
(`src/app/(student)/internships.tsx` lines 309–338): the button carries
`disabled=\x7b... || isLocked\x7d`, so while `isAssignmentLocked` holds the
press performs nothing and the card shows the locked state; otherwise the
`uploadDocument` handler runs. -/
def pressUpload (approval : ApprovalView) (assignment : Assignment) (db : DB)
    (sid : String) (now : Nat) (res : PickerOutcome) : DB × UploadOutcome :=
  if isAssignmentLocked approval assignment then (db, .lockedAssignment)
  else uploadDocument db sid assignment.type assignment.bucket now res

/-- `loadApprovalStatus` from `src/app/(student)/internships.tsx` lines
74–119 (configured backend, no query failure): first look for an
offer-letter submission of the student; if none exists, force
`offer_letter_approved` to false in the approvals table and show a
default-false view; otherwise read the approval row (defaulting a missing
row to false/false) without writing. -/
def loadApprovalStatus (db : DB) (sid : String) : DB × ApprovalView :=
  match findSubmission db.submissions sid .offer_letter with
  | none =>
      ({ db with approvals := setOfferApproved false sid db.approvals },
       { offer_letter_approved := false, credits_awarded := false })
  | some _ =>
      (db,
       match getApproval db.approvals sid with
       | some a =>
           { offer_letter_approved := a.offer_letter_approved,
             credits_awarded := a.credits_awarded }
       | none => { offer_letter_approved := false, credits_awarded := false })

/-- Whether a student has any `offer_letter` submission row (the admin
class view collects these student ids into `studentsWithOfferLetter`). -/
def hasOfferLetter (subs : List Submission) (sid : String) : Bool :=
  subs.any fun s => decide (s.student_id = sid ∧ s.assignment_type = .offer_letter)

/-- Whether a student has a `completion_letter` submission row with status
`approved` (the admin class view collects these ids into
`studentsEligibleForCredits`). -/
def hasApprovedCompletion (subs : List Submission) (sid : String) : Bool :=
  subs.any fun s =>
    decide (s.student_id = sid ∧ s.assignment_type = .completion_letter ∧
      s.submission_status = .approved)

/-- The student ids of the class the admin class view loads
(`student_profiles` filtered by `class`). -/
def classStudentIds (db : DB) (classId : String) : List String :=
  (db.profiles.filter fun p => decide (p.class_ = classId)).map fun p => p.student_id

/-- The offer-letter reset loop of the admin class view (`src/unnamed/
part_001` lines 195–203): for every loaded student id without an
offer-letter submission, write `offer_letter_approved = false`. -/
def resetOfferApprovals (subs : List Submission) (ids : List String)
    (approvals : List Approval) : List Approval :=
  ids.foldl
    (fun acc sid => if hasOfferLetter subs sid then acc else setOfferApproved false sid acc)
    approvals

/-- The credits reset loop of the admin class view (`src/unnamed/part_001`
lines 205–221): for every loaded student id without an approved
completion-letter submission, write `credits_awarded = false`. -/
def resetCreditAwards (subs : List Submission) (ids : List String)
    (approvals : List Approval) : List Approval :=
  ids.foldl
    (fun acc sid =>
      if hasApprovedCompletion subs sid then acc else setCreditsAwarded false sid acc)
    approvals

/-- `loadData` of the admin class view (`src/unnamed/part_001` lines
119–246, configured backend, no query failure), restricted to its writes:
both self-healing reset loops run over the student ids of the class against the
submissions fetched at the start of the load (the loops themselves only
write the approvals table). -/
def loadData (db : DB) (classId : String) : DB :=
  let ids := classStudentIds db classId
  { db with
    approvals :=
      resetCreditAwards db.submissions ids
        (resetOfferApprovals db.submissions ids db.approvals) }

/-- Which of the three independent backend writes of `awardCredits`
succeed; the code checks each error separately, so each write can fail on
its own. -/
structure BackendOutcome where
  creditsWriteOk : Bool
  approvalWriteOk : Bool
  submissionWriteOk : Bool
deriving DecidableEq, Repr

/-- All three backend writes succeed. -/
def allOk : BackendOutcome :=
  { creditsWriteOk := true, approvalWriteOk := true, submissionWriteOk := true }

/-- How `awardCredits` ends, mirroring its early returns and alerts. -/
inductive AwardResult where
  | alreadyAwarded
  | missingDocument
  | studentNotFound
  | creditsWriteFailed
  | approvalWriteFailed
  | awarded (newTotal : Nat)
deriving DecidableEq, Repr

/-- Supabase `update(\x7b total_credits: n \x7d).eq(id, sid)` on
`students`. -/
def updateStudentCredits (students : List Student) (sid : String) (n : Nat) :
    List Student :=
  students.map fun st => if st.id = sid then { st with total_credits := n } else st

/-- The approval upsert of `awardCredits` (`onConflict student_id`):
sets `credits_awarded`, `credits_awarded_at` and `offer_letter_approved`
on the existing row, or inserts a fresh row when none exists. -/
def upsertCreditsAwarded (now : Nat) (offerFlag : Bool) (sid : String)
    (approvals : List Approval) : List Approval :=
  if approvals.any (fun a => decide (a.student_id = sid)) then
    approvals.map fun a =>
      if a.student_id = sid then
        { a with credits_awarded := true, credits_awarded_at := some now,
                 offer_letter_approved := offerFlag }
      else a
  else
    approvals ++
      [{ student_id := sid, offer_letter_approved := offerFlag,
         credits_awarded := true, approved_at := none, credits_awarded_at := some now }]

/-- Supabase `update(\x7b submission_status, admin_feedback \x7d)` keyed by
`(student_id, assignment_type)` on `student_internship_submissions`. -/
def setSubmissionStatus (subs : List Submission) (sid : String)
    (t : AssignmentType) (st : SubmissionStatus) (feedback : Option String) :
    List Submission :=
  subs.map fun s =>
    if s.student_id = sid ∧ s.assignment_type = t then
      { s with submission_status := st, admin_feedback := feedback }
    else s

/-- `awardCredits` from `src/unnamed/part_001` lines 455–560 (configured
backend).  In source order: reject if the loaded approval state already has
`credits_awarded`; reject if the completion-letter submission is absent or
has an empty `file_url` (JS truthiness of `completionSubmission?.file_url`);
read the student row; write the incremented `total_credits`; upsert the
approval row with `credits_awarded = true` (re-asserting the currently
loaded `offer_letter_approved`); finally set the completion-letter
submission to `approved` — a failure of this last write is only logged and
the award still reports success. -/
def awardCredits (out : BackendOutcome) (now : Nat) (db : DB) (sid : String) :
    DB × AwardResult :=
  if creditsFlagIn db.approvals sid then (db, .alreadyAwarded)
  else
    match findSubmission db.submissions sid .completion_letter with
    | none => (db, .missingDocument)
    | some sub =>
        if sub.file_url = "" then (db, .missingDocument)
        else
          match getStudent db.students sid with
          | none => (db, .studentNotFound)
          | some st =>
              let newCredits := st.total_credits + 2
              if !out.creditsWriteOk then (db, .creditsWriteFailed)
              else
                let db1 := { db with students := updateStudentCredits db.students sid newCredits }
                if !out.approvalWriteOk then (db1, .approvalWriteFailed)
                else
                  let db2 := { db1 with
                    approvals :=
                      upsertCreditsAwarded now (offerFlagIn db.approvals sid) sid db1.approvals }
                  let db3 :=
                    if out.submissionWriteOk then
                      { db2 with
                        submissions :=
                          setSubmissionStatus db2.submissions sid .completion_letter .approved
                            (some "2 credits awarded for internship completion") }
                    else db2
                  (db3, .awarded newCredits)

/-- Status column `application_status` of `placement_applications`. -/
inductive AppStatus where
  | pending
  | applied
  | accepted
  | rejected
deriving DecidableEq, Repr

/-- A row of `placement_applications`. -/
structure Application where
  id : String
  placement_event_id : String
  student_id : String
  application_status : AppStatus
  applied_at : Nat
deriving DecidableEq, Repr

/-- A row of `placement_events` (the columns the visibility filter and the
apply flow read). -/
structure PlacementEvent where
  id : String
  title : String
  company_name : String
  eligible_classes : List String
  is_active : Bool
  event_date : Nat
deriving DecidableEq, Repr

/-- A row of `placement_requirements`. -/
structure PlacementRequirement where
  id : String
  event_id : String
  type : String
  is_required : Bool
deriving DecidableEq, Repr

/-- A row of `student_requirement_submissions`. -/
structure RequirementSubmission where
  placement_application_id : String
  requirement_id : String
  file_url : String
  submitted_at : Nat
deriving DecidableEq, Repr

/-- The backend state the placement workflow reads and writes. -/
structure PDB where
  events : List PlacementEvent
  applications : List Application
  requirements : List PlacementRequirement
  requirement_submissions : List RequirementSubmission
  storedFiles : List String
deriving DecidableEq, Repr

/-- `hasAcceptedOffer` from `src/app/(student)/placements.tsx` line 405,
computed over the loaded applications of the student. -/
def hasAcceptedOffer (apps : List Application) : Bool :=
  apps.any fun a => decide (a.application_status = AppStatus.accepted)

/-- `loadMyApplications` (`src/app/(student)/placements.tsx` lines
345–360): the rows of the student in of `placement_applications`. -/
def myApplications (db : PDB) (sid : String) : List Application :=
  db.applications.filter fun a => decide (a.student_id = sid)

/-- How an insert against `placement_applications` ends. -/
inductive InsertResult where
  | ok
  | uniqueViolation
deriving DecidableEq, Repr

/-- Modelled from the spec: the unique composite key of
`placement_applications` on `(student_id, placement_event_id)`.  The
migration creating this table is not under `src/`; the spec states "At most
one Application per (student, event); a second attempt is rejected as a
duplicate, not inserted", and the client code surfaces the Postgres
duplicate-key error `23505` on that insert.  A conflicting insert changes
nothing and reports the violation; otherwise the row is appended. -/
def insertApplication (apps : List Application) (row : Application) :
    List Application × InsertResult :=
  if apps.any (fun a =>
      decide (a.student_id = row.student_id ∧
        a.placement_event_id = row.placement_event_id)) then
    (apps, .uniqueViolation)
  else (apps ++ [row], .ok)

/-- How `applyForPlacement` ends, mirroring its alerts. -/
inductive ApplyResult where
  | notEligible
  | alreadyApplied
  | success
deriving DecidableEq, Repr

/-- `applyForPlacement` from `src/app/(student)/placements.tsx` lines
362–400 (logged-in student, responsive backend): refuse with the
not-eligible alert while `hasAcceptedOffer` holds over the loaded applications of the student; otherwise insert a new row with status `applied`, turning the
duplicate-key error `23505` into the already-applied alert with no row
inserted. -/
def applyForPlacement (db : PDB) (sid eventId newId : String) (now : Nat) :
    PDB × ApplyResult :=
  if hasAcceptedOffer (myApplications db sid) then (db, .notEligible)
  else
    let row : Application :=
      { id := newId, placement_event_id := eventId, student_id := sid,
        application_status := .applied, applied_at := now }
    match insertApplication db.applications row with
    | (apps1, .ok) => ({ db with applications := apps1 }, .success)
    | (_, .uniqueViolation) => (db, .alreadyApplied)

/-- How many `placement_applications` rows exist for one
`(student, event)` pair. -/
def applicationCount (db : PDB) (sid eventId : String) : Nat :=
  (db.applications.filter fun a =>
    decide (a.student_id = sid ∧ a.placement_event_id = eventId)).length

/-- `acceptApplication` from `src/app/(admin)/placements.tsx` lines
320–352, restricted to its write on `placement_applications`: an
unconditional `update(\x7b application_status accepted \x7d).eq(id,
applicationId)`, which succeeds whether or not the row was already
accepted. -/
def acceptApplication (db : PDB) (applicationId : String) : PDB :=
  { db with
    applications :=
      db.applications.map fun a =>
        if a.id = applicationId then { a with application_status := .accepted } else a }

/-- `loadPlacementEvents` from `src/app/(student)/placements.tsx` lines
255–296: the query keeps only rows with `is_active = true`, and the client
then filters by the class of the student — an event passes when its
`eligible_classes` list is empty (open to all) or contains the class. -/
def loadPlacementEvents (events : List PlacementEvent) (studentClass : String) :
    List PlacementEvent :=
  (events.filter fun e => e.is_active).filter fun e =>
    e.eligible_classes.isEmpty || e.eligible_classes.contains studentClass

/-- How `uploadRequirement` ends. -/
inductive ReqUploadOutcome where
  | noChange
  | noApplication
  | requirementNotFound
  | saved
deriving DecidableEq, Repr

/-- Supabase `upsert(..., \x7b onConflict:
placement_application_id,requirement_id \x7d)` on
`student_requirement_submissions`. -/
def upsertRequirementSubmission (subs : List RequirementSubmission)
    (row : RequirementSubmission) : List RequirementSubmission :=
  if subs.any (fun s =>
      decide (s.placement_application_id = row.placement_application_id ∧
        s.requirement_id = row.requirement_id)) then
    subs.map fun s =>
      if s.placement_application_id = row.placement_application_id ∧
          s.requirement_id = row.requirement_id then row
      else s
  else subs ++ [row]

/-- `uploadRequirement` from `src/app/(student)/placements.tsx` lines
406–481 (responsive backend): a cancelled picker returns before any write;
otherwise the file is stored first, then the application of the student for the
event and the requirement row are looked up, and the requirement submission
is upserted. -/
def uploadRequirement (db : PDB) (sid eventId reqType : String) (now : Nat)
    (res : PickerOutcome) : PDB × ReqUploadOutcome :=
  match res with
  | .canceled => (db, .noChange)
  | .picked name _uri =>
      let fileName := sid ++ "_" ++ name ++ "_" ++ toString now
      let url := publicUrlFor "placement-offer-letters" fileName
      let db1 := { db with storedFiles := db.storedFiles ++ [fileName] }
      match (myApplications db sid).find?
          (fun a => decide (a.placement_event_id = eventId)) with
      | none => (db1, .noApplication)
      | some app =>
          match db.requirements.find?
              (fun r => decide (r.event_id = eventId ∧ r.type = reqType)) with
          | none => (db1, .requirementNotFound)
          | some req =>
              let row : RequirementSubmission :=
                { placement_application_id := app.id, requirement_id := req.id,
                  file_url := url, submitted_at := now }
              ({ db1 with
                 requirement_submissions :=
                   upsertRequirementSubmission db1.requirement_submissions row },
               .saved)

/-! Concrete backend states used to evaluate the operations on explicit
inputs. -/

/-- A backend with one student who has submitted a completion letter
(status still `submitted`) and holds no approval row yet. -/
def dbAward : DB :=
  { students := [{ id := "s1", total_credits := 0 }],
    profiles := [{ student_id := "s1", class_ := "TYIT" }],
    submissions :=
      [{ student_id := "s1", assignment_type := .completion_letter,
         file_url := "https://storage/student-documents/c.pdf",
         submission_status := .submitted, submitted_at := 0, admin_feedback := none }],
    approvals := [],
    storedFiles := [] }

/-- A backend where the student holds an offer-letter submission and an
approval row with `offer_letter_approved = true`. -/
def dbOffer : DB :=
  { students := [{ id := "s1", total_credits := 0 }],
    profiles := [{ student_id := "s1", class_ := "TYIT" }],
    submissions :=
      [{ student_id := "s1", assignment_type := .offer_letter,
         file_url := "https://storage/student-documents/o.pdf",
         submission_status := .approved, submitted_at := 0, admin_feedback := none }],
    approvals :=
      [{ student_id := "s1", offer_letter_approved := true, credits_awarded := false,
         approved_at := some 1, credits_awarded_at := none }],
    storedFiles := [] }

/-- A backend where the student has `credits_awarded = true` on record but
the completion-letter submission only has status `submitted`. -/
def dbStaleCredits : DB :=
  { students := [{ id := "s1", total_credits := 2 }],
    profiles := [{ student_id := "s1", class_ := "TYIT" }],
    submissions :=
      [{ student_id := "s1", assignment_type := .completion_letter,
         file_url := "https://storage/student-documents/c.pdf",
         submission_status := .submitted, submitted_at := 0, admin_feedback := none }],
    approvals :=
      [{ student_id := "s1", offer_letter_approved := true, credits_awarded := true,
         approved_at := some 1, credits_awarded_at := some 2 }],
    storedFiles := [] }

/-- The backend outcome where the credit increment and the submission
update go through but the approval-flag upsert fails. -/
def failedApprovalWrite : BackendOutcome :=
  { creditsWriteOk := true, approvalWriteOk := false, submissionWriteOk := true }

/-- An empty internship backend. -/
def dbEmpty : DB :=
  { students := [], profiles := [], submissions := [], approvals := [], storedFiles := [] }

/-- The weekly-report entry of the assignment catalog. -/
def weeklyAssignment : Assignment :=
  { type := .weekly_report, title := "Weekly Report",
    bucket := "internship-weekly-reports", required := true, unlockOthers := false }

/-- The offer-letter entry of the assignment catalog. -/
def offerAssignment : Assignment :=
  { type := .offer_letter, title := "Offer Letter",
    bucket := "internship-offer-letters", required := true, unlockOthers := true }

/-- An empty placement backend. -/
def pdbEmpty : PDB :=
  { events := [], applications := [], requirements := [],
    requirement_submissions := [], storedFiles := [] }

/-- A placement backend holding one application in status `applied`. -/
def pdbApplied : PDB :=
  { events := [],
    applications :=
      [{ id := "a1", placement_event_id := "e1", student_id := "s1",
         application_status := .applied, applied_at := 0 }],
    requirements := [], requirement_submissions := [], storedFiles := [] }

/-- An inactive placement event whose eligible-class list is empty. -/
def inactiveEvent : PlacementEvent :=
  { id := "e1", title := "Dev Role", company_name := "Acme",
    eligible_classes := [], is_active := false, event_date := 10 }

end Campus

namespace Campus

/-! Row-level lemmas about the keyed list operations. -/

/-- A map that preserves the searched key commutes with `find?`. -/
theorem find?_map_of_pred {α : Type} (f : α → α) (p : α → Bool)
    (hp : ∀ x, p (f x) = p x) (l : List α) :
    (l.map f).find? p = (l.find? p).map f := by
  induction l with
  | nil => rfl
  | cons a l ih =>
      cases h : p a <;> simp [List.find?, hp, h, ih]

/-- A list none of whose elements satisfies a predicate yields no find. -/
theorem find?_eq_none_of_any_eq_false {α : Type} {p : α → Bool} {l : List α}
    (h : l.any p = false) : l.find? p = none := by
  rw [List.find?_eq_none]
  intro x hx
  simpa using List.any_eq_false.mp h x hx

/-- `find?` skips a prefix with no match. -/
theorem find?_append_none {α : Type} {p : α → Bool} {l1 l2 : List α}
    (h : l1.find? p = none) : (l1 ++ l2).find? p = l2.find? p := by
  induction l1 with
  | nil => rfl
  | cons a l ih =>
      cases hp : p a with
      | false =>
          simp only [List.find?, hp] at h
          simp only [List.cons_append, List.find?, hp]
          exact ih h
      | true => exact absurd h (by simp [List.find?, hp])

/-- The row a `getApproval` lookup returns carries the searched key. -/
theorem getApproval_key {approvals : List Approval} {sid : String} {a : Approval}
    (h : getApproval approvals sid = some a) : a.student_id = sid := by
  simpa using List.find?_some h

/-- `setOfferApproved` transforms the `getApproval` lookup pointwise. -/
theorem getApproval_setOfferApproved (b : Bool) (sid sid' : String)
    (approvals : List Approval) :
    getApproval (setOfferApproved b sid approvals) sid' =
      (getApproval approvals sid').map fun a =>
        if a.student_id = sid then { a with offer_letter_approved := b } else a := by
  unfold getApproval setOfferApproved
  exact find?_map_of_pred _ _
    (fun x => by by_cases h : x.student_id = sid <;> simp [h]) approvals

/-- `setCreditsAwarded` transforms the `getApproval` lookup pointwise. -/
theorem getApproval_setCreditsAwarded (b : Bool) (sid sid' : String)
    (approvals : List Approval) :
    getApproval (setCreditsAwarded b sid approvals) sid' =
      (getApproval approvals sid').map fun a =>
        if a.student_id = sid then { a with credits_awarded := b } else a := by
  unfold getApproval setCreditsAwarded
  exact find?_map_of_pred _ _
    (fun x => by by_cases h : x.student_id = sid <;> simp [h]) approvals

/-- Forcing the offer flag low leaves it low for that student. -/
theorem offerFlagIn_setOfferApproved_self (sid : String) (approvals : List Approval) :
    offerFlagIn (setOfferApproved false sid approvals) sid = false := by
  unfold offerFlagIn
  rw [getApproval_setOfferApproved]
  cases h : getApproval approvals sid with
  | none => rfl
  | some a => simp [getApproval_key h]

/-- Updating the offer flag of one student leaves the others untouched. -/
theorem offerFlagIn_setOfferApproved_frame (b : Bool) {sid sid' : String}
    (approvals : List Approval) (h : sid' ≠ sid) :
    offerFlagIn (setOfferApproved b sid approvals) sid' = offerFlagIn approvals sid' := by
  unfold offerFlagIn
  rw [getApproval_setOfferApproved]
  cases hf : getApproval approvals sid' with
  | none => rfl
  | some a =>
      have : a.student_id ≠ sid := by rw [getApproval_key hf]; exact h
      simp [this]

/-- Forcing the credits flag low leaves it low for that student. -/
theorem creditsFlagIn_setCreditsAwarded_self (sid : String) (approvals : List Approval) :
    creditsFlagIn (setCreditsAwarded false sid approvals) sid = false := by
  unfold creditsFlagIn
  rw [getApproval_setCreditsAwarded]
  cases h : getApproval approvals sid with
  | none => rfl
  | some a => simp [getApproval_key h]

/-- Updating the credits flag of one student leaves the others untouched. -/
theorem creditsFlagIn_setCreditsAwarded_frame (b : Bool) {sid sid' : String}
    (approvals : List Approval) (h : sid' ≠ sid) :
    creditsFlagIn (setCreditsAwarded b sid approvals) sid' =
      creditsFlagIn approvals sid' := by
  unfold creditsFlagIn
  rw [getApproval_setCreditsAwarded]
  cases hf : getApproval approvals sid' with
  | none => rfl
  | some a =>
      have : a.student_id ≠ sid := by rw [getApproval_key hf]; exact h
      simp [this]

/-- The credits setter never touches the offer flag of any student. -/
theorem offerFlagIn_setCreditsAwarded (b : Bool) (sid sid' : String)
    (approvals : List Approval) :
    offerFlagIn (setCreditsAwarded b sid approvals) sid' = offerFlagIn approvals sid' := by
  unfold offerFlagIn
  rw [getApproval_setCreditsAwarded]
  cases hf : getApproval approvals sid' with
  | none => rfl
  | some a => by_cases hb : a.student_id = sid <;> simp [hb]

/-- A student outside the reset loop keeps their credits flag. -/
theorem creditsFlagIn_resetCreditAwards_frame (subs : List Submission)
    (ids : List String) (approvals : List Approval) (sid : String)
    (h : sid ∉ ids) :
    creditsFlagIn (resetCreditAwards subs ids approvals) sid =
      creditsFlagIn approvals sid := by
  induction ids generalizing approvals with
  | nil => rfl
  | cons x rest ih =>
      have hx : sid ≠ x := fun e => h (by simp [e])
      have hr : sid ∉ rest := fun m => h (by simp [m])
      show creditsFlagIn (resetCreditAwards subs rest
        (if hasApprovedCompletion subs x then approvals
         else setCreditsAwarded false x approvals)) sid = _
      by_cases hc : hasApprovedCompletion subs x = true
      · rw [if_pos hc, ih _ hr]
      · rw [if_neg hc, ih _ hr, creditsFlagIn_setCreditsAwarded_frame false _ hx]

/-- The credits reset loop forces the flag low for every looped student
without an approved completion letter. -/
theorem creditsFlagIn_resetCreditAwards_false (subs : List Submission)
    (ids : List String) (approvals : List Approval) (sid : String)
    (hmem : sid ∈ ids) (hnc : hasApprovedCompletion subs sid = false) :
    creditsFlagIn (resetCreditAwards subs ids approvals) sid = false := by
  induction ids generalizing approvals with
  | nil => cases hmem
  | cons x rest ih =>
      show creditsFlagIn (resetCreditAwards subs rest
        (if hasApprovedCompletion subs x then approvals
         else setCreditsAwarded false x approvals)) sid = false
      by_cases hmr : sid ∈ rest
      · exact ih _ hmr
      · have hx : sid = x := by
          rcases List.mem_cons.mp hmem with h | h
          · exact h
          · exact absurd h hmr
        rw [← hx, if_neg (by rw [hnc]; exact Bool.false_ne_true),
          creditsFlagIn_resetCreditAwards_frame subs rest _ sid hmr,
          creditsFlagIn_setCreditsAwarded_self]

/-- A student outside the reset loop keeps their offer flag. -/
theorem offerFlagIn_resetOfferApprovals_frame (subs : List Submission)
    (ids : List String) (approvals : List Approval) (sid : String)
    (h : sid ∉ ids) :
    offerFlagIn (resetOfferApprovals subs ids approvals) sid =
      offerFlagIn approvals sid := by
  induction ids generalizing approvals with
  | nil => rfl
  | cons x rest ih =>
      have hx : sid ≠ x := fun e => h (by simp [e])
      have hr : sid ∉ rest := fun m => h (by simp [m])
      show offerFlagIn (resetOfferApprovals subs rest
        (if hasOfferLetter subs x then approvals
         else setOfferApproved false x approvals)) sid = _
      by_cases hc : hasOfferLetter subs x = true
      · rw [if_pos hc, ih _ hr]
      · rw [if_neg hc, ih _ hr, offerFlagIn_setOfferApproved_frame false _ hx]

/-- The offer reset loop forces the flag low for every looped student
without an offer-letter submission. -/
theorem offerFlagIn_resetOfferApprovals_false (subs : List Submission)
    (ids : List String) (approvals : List Approval) (sid : String)
    (hmem : sid ∈ ids) (hno : hasOfferLetter subs sid = false) :
    offerFlagIn (resetOfferApprovals subs ids approvals) sid = false := by
  induction ids generalizing approvals with
  | nil => cases hmem
  | cons x rest ih =>
      show offerFlagIn (resetOfferApprovals subs rest
        (if hasOfferLetter subs x then approvals
         else setOfferApproved false x approvals)) sid = false
      by_cases hmr : sid ∈ rest
      · exact ih _ hmr
      · have hx : sid = x := by
          rcases List.mem_cons.mp hmem with h | h
          · exact h
          · exact absurd h hmr
        rw [← hx, if_neg (by rw [hno]; exact Bool.false_ne_true),
          offerFlagIn_resetOfferApprovals_frame subs rest _ sid hmr,
          offerFlagIn_setOfferApproved_self]

/-- The credits reset loop never touches offer flags. -/
theorem offerFlagIn_resetCreditAwards (subs : List Submission) (ids : List String)
    (approvals : List Approval) (sid : String) :
    offerFlagIn (resetCreditAwards subs ids approvals) sid =
      offerFlagIn approvals sid := by
  induction ids generalizing approvals with
  | nil => rfl
  | cons x rest ih =>
      show offerFlagIn (resetCreditAwards subs rest
        (if hasApprovedCompletion subs x then approvals
         else setCreditsAwarded false x approvals)) sid = _
      by_cases hc : hasApprovedCompletion subs x = true
      · rw [if_pos hc, ih _]
      · rw [if_neg hc, ih _, offerFlagIn_setCreditsAwarded]

/-- A list has a match for a predicate exactly when `find?` succeeds. -/
theorem any_eq_isSome_find? {α : Type} (p : α → Bool) (l : List α) :
    l.any p = (l.find? p).isSome := by
  induction l with
  | nil => rfl
  | cons a l ih => cases h : p a <;> simp [List.any_cons, List.find?, h, ih]

/-- Having an offer-letter submission is the same as the keyed lookup
succeeding. -/
theorem hasOfferLetter_eq_isSome (subs : List Submission) (sid : String) :
    hasOfferLetter subs sid = (findSubmission subs sid .offer_letter).isSome := by
  unfold hasOfferLetter findSubmission
  exact any_eq_isSome_find? _ _

/-- The award upsert leaves the credits flag high for the awarded student. -/
theorem creditsFlagIn_upsertCreditsAwarded (now : Nat) (flag : Bool) (sid : String)
    (approvals : List Approval) :
    creditsFlagIn (upsertCreditsAwarded now flag sid approvals) sid = true := by
  unfold upsertCreditsAwarded
  by_cases hany : approvals.any (fun a => decide (a.student_id = sid)) = true
  · rw [if_pos hany]
    unfold creditsFlagIn getApproval
    rw [find?_map_of_pred _ _
      (fun x => by by_cases h : x.student_id = sid <;> simp [h])]
    obtain ⟨a, ha, hpa⟩ := List.any_eq_true.mp hany
    cases hf : approvals.find? (fun a => decide (a.student_id = sid)) with
    | none =>
        rw [List.find?_eq_none] at hf
        exact absurd hpa (hf a ha)
    | some b =>
        have hb : b.student_id = sid := by simpa using List.find?_some hf
        simp [hb]
  · rw [if_neg hany]
    have hfalse : approvals.any (fun a => decide (a.student_id = sid)) = false :=
      Bool.not_eq_true _ ▸ eq_false_of_ne_true hany
    unfold creditsFlagIn getApproval
    rw [find?_append_none (find?_eq_none_of_any_eq_false hfalse)]
    simp [List.find?]

/-- Updating the credit total rewrites the student lookup in place. -/
theorem getStudent_updateStudentCredits (students : List Student) (sid : String)
    (n : Nat) {st : Student} (h : getStudent students sid = some st) :
    getStudent (updateStudentCredits students sid n) sid =
      some { st with total_credits := n } := by
  unfold getStudent updateStudentCredits
  rw [find?_map_of_pred _ _
    (fun x => by by_cases hx : x.id = sid <;> simp [hx])]
  unfold getStudent at h
  rw [h]
  have hid : st.id = sid := by simpa using List.find?_some h
  simp [hid]

/-! Claim theorems. -/

/-- C1: for every assignment type other than the offer letter, pressing
upload succeeds only while `offer_letter_approved` is on — with the flag
off the press is blocked as locked and nothing runs — while an offer-letter
upload is never blocked as locked. -/
theorem locked_unless_offer_approved (v : ApprovalView) (a : Assignment)
    (db : DB) (sid : String) (now : Nat) (res : PickerOutcome) :
    (a.type ≠ AssignmentType.offer_letter → v.offer_letter_approved = false →
        pressUpload v a db sid now res = (db, UploadOutcome.lockedAssignment))
    ∧ (a.type ≠ AssignmentType.offer_letter → v.offer_letter_approved = true →
        isAssignmentLocked v a = false)
    ∧ (a.type = AssignmentType.offer_letter →
        (pressUpload v a db sid now res).2 ≠ UploadOutcome.lockedAssignment) := by
  refine ⟨?_, ?_, ?_⟩
  · intro hne hoff
    simp [pressUpload, isAssignmentLocked, hne, hoff]
  · intro hne hon
    simp [isAssignmentLocked, hne, hon]
  · intro heq
    simp only [pressUpload, isAssignmentLocked, heq, if_pos, if_true]
    cases res <;> simp [uploadDocument]

/-- Witness for C1 at a concrete state: with the flag off a weekly-report
press is blocked as locked, and an offer-letter press is not. -/
theorem locked_unless_offer_approved_witness :
    pressUpload { offer_letter_approved := false, credits_awarded := false }
        weeklyAssignment dbEmpty "s1" 5 PickerOutcome.canceled =
      (dbEmpty, UploadOutcome.lockedAssignment)
    ∧ (pressUpload { offer_letter_approved := false, credits_awarded := false }
        offerAssignment dbEmpty "s1" 5 PickerOutcome.canceled).2 ≠
      UploadOutcome.lockedAssignment :=
  ⟨(locked_unless_offer_approved _ weeklyAssignment dbEmpty "s1" 5 _).1
      (by decide) rfl,
   (locked_unless_offer_approved _ offerAssignment dbEmpty "s1" 5 _).2.2
      (by decide)⟩

/-- C7: accepting an application marks every row with that id accepted, and
re-running accept on the already-accepted application returns the identical
state (the unconditional status update is idempotent, not an error). -/
theorem acceptApplication_accepts_and_idempotent (db : PDB)
    (applicationId : String) :
    (∀ a ∈ (acceptApplication db applicationId).applications,
        a.id = applicationId → a.application_status = AppStatus.accepted)
    ∧ acceptApplication (acceptApplication db applicationId) applicationId =
        acceptApplication db applicationId := by
  constructor
  · intro a ha hid
    rcases List.mem_map.mp ha with ⟨b, _, rfl⟩
    by_cases h : b.id = applicationId
    · simp [h]
    · simp only [if_neg h] at hid ⊢
      exact absurd hid h
  · have hmap : ∀ l : List Application,
        (l.map fun a =>
          if a.id = applicationId then { a with application_status := AppStatus.accepted }
          else a).map (fun a =>
            if a.id = applicationId then { a with application_status := AppStatus.accepted }
            else a) =
        l.map fun a =>
          if a.id = applicationId then { a with application_status := AppStatus.accepted }
          else a := by
      intro l
      induction l with
      | nil => rfl
      | cons x xs ih =>
          by_cases h : x.id = applicationId <;> simp [h, ih]
    simp only [acceptApplication]
    rw [hmap db.applications]

/-- Witness for C7 at a concrete state: the applied application becomes
accepted and a second accept changes nothing. -/
theorem acceptApplication_witness :
    (Application.mk "a1" "e1" "s1" AppStatus.accepted 0).application_status =
      AppStatus.accepted
    ∧ acceptApplication (acceptApplication pdbApplied "a1") "a1" =
        acceptApplication pdbApplied "a1" :=
  ⟨(acceptApplication_accepts_and_idempotent pdbApplied "a1").1
      (Application.mk "a1" "e1" "s1" AppStatus.accepted 0) (by decide) rfl,
   (acceptApplication_accepts_and_idempotent pdbApplied "a1").2⟩

/-- C8 counterexample: an inactive event with an empty eligible-class list
satisfies the eligibility side of the claimed equivalence yet is not
visible, so visibility is not equivalent to class eligibility alone. -/
theorem visibility_counterexample :
    inactiveEvent.eligible_classes.isEmpty = true
    ∧ loadPlacementEvents [inactiveEvent] "TYIT" = [] := by
  constructor
  · rfl
  · rfl

/-- C8 amended: an event is visible exactly when it is in the table, is
active, and its eligible-class list is empty or contains the class of the
student. -/
theorem visible_iff_active_and_eligible (events : List PlacementEvent)
    (e : PlacementEvent) (c : String) :
    e ∈ loadPlacementEvents events c ↔
      e ∈ events ∧ e.is_active = true ∧
        (e.eligible_classes.isEmpty = true ∨ e.eligible_classes.contains c = true) := by
  unfold loadPlacementEvents
  simp [List.mem_filter, Bool.or_eq_true, and_assoc]
  tauto

/-- C9: a cancelled file selection changes nothing — the internship upload
handler and the placement requirement upload handler both return the state
untouched with no submission row written and no file stored. -/
theorem cancel_upload_no_state_change (db : DB) (sid : String)
    (t : AssignmentType) (bucket : String) (now : Nat) (pdb : PDB)
    (eventId reqType : String) :
    uploadDocument db sid t bucket now PickerOutcome.canceled =
      (db, UploadOutcome.noChange)
    ∧ uploadRequirement pdb sid eventId reqType now PickerOutcome.canceled =
      (pdb, ReqUploadOutcome.noChange) :=
  ⟨rfl, rfl⟩

/-- A list with no match for a predicate filters to nothing. -/
theorem filter_eq_nil_of_any_eq_false {α : Type} {p : α → Bool} {l : List α}
    (h : l.any p = false) : l.filter p = [] := by
  induction l with
  | nil => rfl
  | cons a l ih =>
      rw [List.any_cons, Bool.or_eq_false_iff] at h
      rw [List.filter_cons, if_neg (by rw [h.1]; exact Bool.false_ne_true)]
      exact ih h.2

/-- C5: once an apply has succeeded for a (student, event) pair, applying
again for the same pair reports the duplicate (Postgres 23505 surfaced as
already-applied), inserts nothing, and exactly one application row exists
for the pair. -/
theorem apply_twice_single_row (db : PDB) (sid eventId id1 id2 : String)
    (t1 t2 : Nat)
    (h : (applyForPlacement db sid eventId id1 t1).2 = ApplyResult.success) :
    applyForPlacement (applyForPlacement db sid eventId id1 t1).1 sid eventId id2 t2 =
      ((applyForPlacement db sid eventId id1 t1).1, ApplyResult.alreadyApplied)
    ∧ applicationCount (applyForPlacement db sid eventId id1 t1).1 sid eventId = 1 := by
  by_cases hacc : hasAcceptedOffer (myApplications db sid) = true
  · simp [applyForPlacement, hacc] at h
  · have hacc1 : hasAcceptedOffer (myApplications db sid) = false :=
      eq_false_of_ne_true hacc
    by_cases hdup : ∃ x ∈ db.applications,
        x.student_id = sid ∧ x.placement_event_id = eventId
    · simp [applyForPlacement, insertApplication, hacc1, hdup] at h
    · have hdup1 : (db.applications.any fun a =>
          decide (a.student_id = sid ∧ a.placement_event_id = eventId)) = false := by
        rw [← Bool.not_eq_true, List.any_eq_true]
        simpa using hdup
      have haccP : ∀ x ∈ db.applications, x.student_id = sid →
          ¬ x.application_status = AppStatus.accepted := by
        simpa [hasAcceptedOffer, myApplications] using hacc1
      have heq : applyForPlacement db sid eventId id1 t1 =
          ({ db with applications := db.applications ++
              [{ id := id1, placement_event_id := eventId, student_id := sid,
                 application_status := .applied, applied_at := t1 }] },
           ApplyResult.success) := by
        simp [applyForPlacement, insertApplication, hacc1, hdup]
      rw [heq]
      constructor
      · simp [applyForPlacement, insertApplication, myApplications,
          hasAcceptedOffer, List.filter_append, List.any_append]
        exact haccP
      · unfold applicationCount
        simp only [List.filter_append, filter_eq_nil_of_any_eq_false hdup1]
        simp

/-- Witness for C5 at a concrete state: after a first successful apply the
second one is refused and one row exists. -/
theorem apply_twice_single_row_witness :
    applyForPlacement (applyForPlacement pdbEmpty "s1" "e1" "a1" 0).1
        "s1" "e1" "a2" 1 =
      ((applyForPlacement pdbEmpty "s1" "e1" "a1" 0).1, ApplyResult.alreadyApplied)
    ∧ applicationCount (applyForPlacement pdbEmpty "s1" "e1" "a1" 0).1 "s1" "e1" = 1 :=
  apply_twice_single_row pdbEmpty "s1" "e1" "a1" "a2" 0 1 (by decide)

/-- C6 counterexample: a student holding no accepted application but an
applied one for the event gets the duplicate refusal and no new
application, so the otherwise-branch of the claim does not create a row. -/
theorem apply_duplicate_not_created :
    hasAcceptedOffer (myApplications pdbApplied "s1") = false
    ∧ (applyForPlacement pdbApplied "s1" "e1" "a2" 1).2 = ApplyResult.alreadyApplied
    ∧ (applyForPlacement pdbApplied "s1" "e1" "a2" 1).1 = pdbApplied := by
  refine ⟨rfl, rfl, rfl⟩

/-- C6 amended: an accepted offer anywhere blocks the apply as not
eligible with no insertion; without one, the apply creates an applied row
when the pair is fresh and reports the duplicate with no insertion when an
application for the pair already exists. -/
theorem apply_gate_amended (db : PDB) (sid eventId newId : String) (now : Nat) :
    (hasAcceptedOffer (myApplications db sid) = true →
        applyForPlacement db sid eventId newId now = (db, ApplyResult.notEligible))
    ∧ (hasAcceptedOffer (myApplications db sid) = false →
        db.applications.any (fun a =>
          decide (a.student_id = sid ∧ a.placement_event_id = eventId)) = false →
        applyForPlacement db sid eventId newId now =
          ({ db with applications := db.applications ++
              [{ id := newId, placement_event_id := eventId, student_id := sid,
                 application_status := .applied, applied_at := now }] },
           ApplyResult.success))
    ∧ (hasAcceptedOffer (myApplications db sid) = false →
        db.applications.any (fun a =>
          decide (a.student_id = sid ∧ a.placement_event_id = eventId)) = true →
        applyForPlacement db sid eventId newId now = (db, ApplyResult.alreadyApplied)) := by
  refine ⟨?_, ?_, ?_⟩
  · intro h1
    simp [applyForPlacement, h1]
  · intro h1 h2
    have hd : ¬ ∃ x ∈ db.applications,
        x.student_id = sid ∧ x.placement_event_id = eventId := by
      rw [← Bool.not_eq_true, List.any_eq_true] at h2
      simpa using h2
    simp [applyForPlacement, insertApplication, h1, hd]
  · intro h1 h2
    have hd : ∃ x ∈ db.applications,
        x.student_id = sid ∧ x.placement_event_id = eventId := by
      rw [List.any_eq_true] at h2
      simpa using h2
    simp [applyForPlacement, insertApplication, h1, hd]

/-- Witness for the amended C6 at a concrete state: on an empty backend the
apply succeeds and appends the applied row. -/
theorem apply_gate_amended_witness :
    applyForPlacement pdbEmpty "s1" "e1" "a1" 0 =
      ({ pdbEmpty with applications := pdbEmpty.applications ++
          [{ id := "a1", placement_event_id := "e1", student_id := "s1",
             application_status := .applied, applied_at := 0 }] },
       ApplyResult.success) :=
  (apply_gate_amended pdbEmpty "s1" "e1" "a1" 0).2.1 (by decide) (by decide)

/-- C4: after either load — the per-student approval load of the student
internships screen or the admin class-view load — a student whose
`offer_letter_approved` reads true does hold an offer-letter submission;
when the submission is absent the loads force the flag false. -/
theorem offer_flag_implies_offer_letter (db : DB) (sid classId : String) :
    ((loadApprovalStatus db sid).2.offer_letter_approved = true →
        hasOfferLetter db.submissions sid = true)
    ∧ (offerFlagIn (loadApprovalStatus db sid).1.approvals sid = true →
        hasOfferLetter db.submissions sid = true)
    ∧ (sid ∈ classStudentIds db classId →
        offerFlagIn (loadData db classId).approvals sid = true →
        hasOfferLetter db.submissions sid = true) := by
  refine ⟨?_, ?_, ?_⟩
  · intro hv
    cases hf : findSubmission db.submissions sid .offer_letter with
    | none => simp [loadApprovalStatus, hf] at hv
    | some u => rw [hasOfferLetter_eq_isSome, hf]; rfl
  · intro hflag
    cases hf : findSubmission db.submissions sid .offer_letter with
    | none =>
        rw [loadApprovalStatus] at hflag
        simp only [hf] at hflag
        rw [offerFlagIn_setOfferApproved_self] at hflag
        cases hflag
    | some u => rw [hasOfferLetter_eq_isSome, hf]; rfl
  · intro hmem hflag
    cases hOL : hasOfferLetter db.submissions sid with
    | true => rfl
    | false =>
        exfalso
        have hlow : offerFlagIn (loadData db classId).approvals sid = false := by
          show offerFlagIn (resetCreditAwards db.submissions (classStudentIds db classId)
            (resetOfferApprovals db.submissions (classStudentIds db classId)
              db.approvals)) sid = false
          rw [offerFlagIn_resetCreditAwards,
            offerFlagIn_resetOfferApprovals_false _ _ _ _ hmem hOL]
        rw [hlow] at hflag
        cases hflag

/-- Witness for C4 at a concrete state: with an approved offer letter on
file the flag survives the load and the submission indeed exists. -/
theorem offer_flag_implies_offer_letter_witness :
    hasOfferLetter dbOffer.submissions "s1" = true :=
  (offer_flag_implies_offer_letter dbOffer "s1" "TYIT").2.1 (by decide)

/-- C10: the admin class-view load forces `credits_awarded` false for every
loaded student without a completion-letter submission of status approved —
in particular also when the submission exists with status submitted or
rejected. -/
theorem loadData_resets_unapproved_credits (db : DB) (sid classId : String)
    (hmem : sid ∈ classStudentIds db classId)
    (hnc : hasApprovedCompletion db.submissions sid = false) :
    creditsFlagIn (loadData db classId).approvals sid = false := by
  show creditsFlagIn (resetCreditAwards db.submissions (classStudentIds db classId)
    (resetOfferApprovals db.submissions (classStudentIds db classId)
      db.approvals)) sid = false
  exact creditsFlagIn_resetCreditAwards_false _ _ _ _ hmem hnc

/-- Witness for C10 at a concrete state: a student whose completion letter
has status submitted and whose record says credits were awarded is reset to
false by the load. -/
theorem loadData_resets_unapproved_credits_witness :
    creditsFlagIn (loadData dbStaleCredits "TYIT").approvals "s1" = false :=
  loadData_resets_unapproved_credits dbStaleCredits "s1" "TYIT" (by decide) (by decide)

/-- With all writes succeeding and every guard passed, `awardCredits`
produces exactly the incremented credit total, the high approval flag and
the approved completion letter. -/
theorem awardCredits_success_eq (db : DB) (sid : String) (now : Nat)
    (sub : Submission) (st : Student)
    (h1 : creditsFlagIn db.approvals sid = false)
    (h2 : findSubmission db.submissions sid .completion_letter = some sub)
    (h3 : ¬ sub.file_url = "")
    (h4 : getStudent db.students sid = some st) :
    awardCredits allOk now db sid =
      ({ students := updateStudentCredits db.students sid (st.total_credits + 2),
         profiles := db.profiles,
         submissions := setSubmissionStatus db.submissions sid .completion_letter
           .approved (some "2 credits awarded for internship completion"),
         approvals := upsertCreditsAwarded now (offerFlagIn db.approvals sid) sid
           db.approvals,
         storedFiles := db.storedFiles },
       AwardResult.awarded (st.total_credits + 2)) := by
  simp [awardCredits, allOk, h1, h2, h3, h4]

/-- C2: after a successful credit award, running the award again is
refused as already awarded and changes nothing, and the credit total went
up by exactly 2 in all — not 4 — because the second run checks the
`credits_awarded` flag first. -/
theorem award_credits_twice (db : DB) (sid : String) (now1 now2 n : Nat)
    (h : (awardCredits allOk now1 db sid).2 = AwardResult.awarded n) :
    awardCredits allOk now2 (awardCredits allOk now1 db sid).1 sid =
      ((awardCredits allOk now1 db sid).1, AwardResult.alreadyAwarded)
    ∧ totalCreditsOf (awardCredits allOk now1 db sid).1 sid =
        totalCreditsOf db sid + 2 := by
  by_cases h1 : creditsFlagIn db.approvals sid = true
  · simp [awardCredits, h1] at h
  · have h1f : creditsFlagIn db.approvals sid = false := eq_false_of_ne_true h1
    cases h2 : findSubmission db.submissions sid .completion_letter with
    | none => simp [awardCredits, h1f, h2] at h
    | some sub =>
        by_cases h3 : sub.file_url = ""
        · simp [awardCredits, h1f, h2, h3] at h
        · cases h4 : getStudent db.students sid with
          | none => simp [awardCredits, h1f, h2, h3, h4] at h
          | some st =>
              have heq := awardCredits_success_eq db sid now1 sub st h1f h2 h3 h4
              rw [heq]
              constructor
              · have hflag : creditsFlagIn (upsertCreditsAwarded now1
                    (offerFlagIn db.approvals sid) sid db.approvals) sid = true :=
                  creditsFlagIn_upsertCreditsAwarded _ _ _ _
                simp [awardCredits, hflag]
              · have hst := getStudent_updateStudentCredits db.students sid
                  (st.total_credits + 2) h4
                simp [totalCreditsOf, hst, h4]

/-- Witness for C2 at a concrete state: awarding twice on the one-student
backend refuses the second run and lands on a total of exactly two more
credits. -/
theorem award_credits_twice_witness :
    awardCredits allOk 2 (awardCredits allOk 1 dbAward "s1").1 "s1" =
      ((awardCredits allOk 1 dbAward "s1").1, AwardResult.alreadyAwarded)
    ∧ totalCreditsOf (awardCredits allOk 1 dbAward "s1").1 "s1" =
        totalCreditsOf dbAward "s1" + 2 :=
  award_credits_twice dbAward "s1" 1 2 2 (by decide)

/-- C3 is refuted by the write ordering of `awardCredits`: the credit
increment is committed before the `credits_awarded` upsert, so when that
upsert fails the error is surfaced with the increment already persisted and
the flag still low — and the retried award increments again, ending at 4
instead of 2. -/
theorem award_partial_failure_retry_double_increments :
    (awardCredits failedApprovalWrite 1 dbAward "s1").2 =
      AwardResult.approvalWriteFailed
    ∧ totalCreditsOf (awardCredits failedApprovalWrite 1 dbAward "s1").1 "s1" = 2
    ∧ creditsFlagIn
        (awardCredits failedApprovalWrite 1 dbAward "s1").1.approvals "s1" = false
    ∧ (awardCredits allOk 2
        (awardCredits failedApprovalWrite 1 dbAward "s1").1 "s1").2 =
      AwardResult.awarded 4
    ∧ totalCreditsOf
        (awardCredits allOk 2
          (awardCredits failedApprovalWrite 1 dbAward "s1").1 "s1").1 "s1" = 4 := by
  refine ⟨rfl, rfl, rfl, rfl, rfl⟩

end Campus
